import Mathlib

/-!
# Verification of the claude-agent-sdk-rust control-protocol client

This file embeds, in Lean 4, the parts of the repository needed to settle
the frozen claims: the `InternalClient` connection/one-shot-query logic from
`src/_internal/client.rs`, the `MockTransport` from `tests/mock_transport.rs`,
and — for the modules whose sources are not shipped (`message_parser.rs`,
`query.rs`, the message types) — models built from the specification's words.

Machine-level effects (spawning a subprocess, awaiting a future) are embedded
as explicit outcome environments and effect traces: each fallible external
call is represented by an `Except` outcome drawn from an `Env`, and the
embedding records the ordered list of external calls it performs.
-/

set_option autoImplicit false

namespace ClaudeSDK

/-- A shallow model of `serde_json::Value` (numbers as integers suffice for
the discriminator/field logic the claims exercise). -/
inductive Json where
  | null : Json
  | bool (b : Bool) : Json
  | num (n : Int) : Json
  | str (s : String) : Json
  | arr (xs : List Json) : Json
  | obj (fields : List (String × Json)) : Json

/-- Field lookup on a JSON object: first binding of the key, `none` when the
value is not an object or the key is absent. -/
def Json.getField (j : Json) (key : String) : Option Json :=
  match j with
  | .obj fields => (fields.find? (fun f => f.1 == key)).map Prod.snd
  | _ => none

/-- The `type` discriminator of a JSON value, when present as a string. -/
def Json.typeTag (j : Json) : Option String :=
  match j.getField "type" with
  | some (.str s) => some s
  | _ => none

/-- `ClaudeSDKError` variants reached by the embedded code paths
(constructor helpers `configuration`, `cli_connection`, `cli_not_found`,
`timeout`, `internal` in the errors module). -/
inductive SDKError where
  | configuration (msg : String) : SDKError
  | cliConnection (msg : String) : SDKError
  | cliNotFound (msg : String) : SDKError
  | timeout (ms : Nat) : SDKError
  | internal (msg : String) : SDKError
deriving DecidableEq, Repr

/-- `PermissionMode` (from the public types; values shown by `test_types.rs`). -/
inductive PermissionMode where
  | default : PermissionMode
  | acceptEdits : PermissionMode
  | plan : PermissionMode
  | bypassPermissions : PermissionMode
deriving DecidableEq, Repr

/-- The slice of `ClaudeAgentOptions` that `client.rs` inspects:
`can_use_tool` and `hooks` only via `.is_some()` (the callback values
themselves are opaque), `permission_prompt_tool_name` as an optional name. -/
structure ClaudeAgentOptions where
  can_use_tool : Bool
  permission_prompt_tool_name : Option String
  hooks : Bool
deriving DecidableEq, Repr

/-- One external call performed by the client, in order. -/
inductive Effect where
  | validateOptions : Effect
  | createTransport : Effect
  | transportConnect : Effect
  | queryStart : Effect
  | queryInitialize : Effect
  | querySend (message : String) : Effect
  | setCloseStdinOnResult (value : Bool) : Effect
  | queryEndInput : Effect
  | queryInterrupt : Effect
  | querySetPermissionMode (mode : PermissionMode) : Effect
  | querySetModel (model : String) : Effect
  | queryRewindFiles (user_message_id : String) : Effect
  | queryGetMcpStatus : Effect
  | queryStop : Effect
deriving DecidableEq, Repr

/-- Outcomes of the external calls: the environment the client runs against
(the subprocess / query-handler side of each await point). -/
structure Env where
  createTransport : Except SDKError Unit
  transportConnect : Except SDKError Unit
  queryStart : Except SDKError Unit
  queryInitialize : Except SDKError Unit
  querySend : Except SDKError Unit
  queryEndInput : Except SDKError Unit
  queryInterrupt : Except SDKError Unit
  querySetPermissionMode : Except SDKError Unit
  querySetModel : Except SDKError Unit
  queryRewindFiles : Except SDKError Unit
  queryGetMcpStatus : Except SDKError Json
  queryServerInfo : Option Json
  queryStop : Except SDKError Unit

/-- An environment in which every external call succeeds. -/
def Env.allOk : Env :=
  { createTransport := .ok ()
    transportConnect := .ok ()
    queryStart := .ok ()
    queryInitialize := .ok ()
    querySend := .ok ()
    queryEndInput := .ok ()
    queryInterrupt := .ok ()
    querySetPermissionMode := .ok ()
    querySetModel := .ok ()
    queryRewindFiles := .ok ()
    queryGetMcpStatus := .ok (.obj [])
    queryServerInfo := some (.obj [])
    queryStop := .ok () }

/-- `InternalClient` state (`client.rs`): the query handler and message
receiver are opaque here, so only their presence is tracked. -/
structure InternalClient where
  query : Option Unit
  message_rx : Option Unit
  options : ClaudeAgentOptions
  connected : Bool
deriving DecidableEq, Repr

namespace InternalClient

/-- `InternalClient::new`. -/
def new (options : ClaudeAgentOptions) : InternalClient :=
  { query := none, message_rx := none, options := options, connected := false }

/-- `InternalClient::validate_options`: rejects setting both `can_use_tool`
and `permission_prompt_tool_name`. -/
def validate_options (options : ClaudeAgentOptions) : Except SDKError Unit :=
  if options.can_use_tool && options.permission_prompt_tool_name.isSome then
    .error (.configuration
      "Cannot specify both 'can_use_tool' and 'permission_prompt_tool_name'")
  else
    .ok ()

/-- `InternalClient::connect`: early-return when already connected; validate
options; create and connect the transport; install query handler and
receiver; start; initialize; mark connected. Errors propagate at each `?`,
leaving exactly the state mutations already performed. Returns the new
state, the result, and the ordered trace of external calls. -/
def connect (env : Env) (c : InternalClient) :
    InternalClient × Except SDKError Unit × List Effect :=
  if c.connected then
    (c, .ok (), [])
  else
    match validate_options c.options with
    | .error e => (c, .error e, [.validateOptions])
    | .ok () =>
      match env.createTransport with
      | .error e => (c, .error e, [.validateOptions, .createTransport])
      | .ok () =>
        match env.transportConnect with
        | .error e =>
          (c, .error e, [.validateOptions, .createTransport, .transportConnect])
        | .ok () =>
          let c1 : InternalClient := { c with message_rx := some (), query := some () }
          match env.queryStart with
          | .error e =>
            (c1, .error e,
              [.validateOptions, .createTransport, .transportConnect, .queryStart])
          | .ok () =>
            match env.queryInitialize with
            | .error e =>
              (c1, .error e,
                [.validateOptions, .createTransport, .transportConnect,
                 .queryStart, .queryInitialize])
            | .ok () =>
              ({ c1 with connected := true }, .ok (),
                [.validateOptions, .createTransport, .transportConnect,
                 .queryStart, .queryInitialize])

/-- `InternalClient::send_message`: fails with a connection error when the
query handler is absent. -/
def send_message (env : Env) (c : InternalClient) (message : String) :
    Except SDKError Unit × List Effect :=
  match c.query with
  | none => (.error (.cliConnection "Client not connected"), [])
  | some _ => (env.querySend, [.querySend message])

/-- `InternalClient::set_close_stdin_on_result`: sets the flag on the query
handler when present, silently does nothing otherwise. -/
def set_close_stdin_on_result (c : InternalClient) (value : Bool) : List Effect :=
  match c.query with
  | none => []
  | some _ => [.setCloseStdinOnResult value]

/-- `InternalClient::end_input`. -/
def end_input (env : Env) (c : InternalClient) :
    Except SDKError Unit × List Effect :=
  match c.query with
  | none => (.error (.cliConnection "Client not connected"), [])
  | some _ => (env.queryEndInput, [.queryEndInput])

/-- `InternalClient::take_message_rx`. -/
def take_message_rx (c : InternalClient) : InternalClient × Option Unit :=
  ({ c with message_rx := none }, c.message_rx)

/-- `InternalClient::interrupt`. -/
def interrupt (env : Env) (c : InternalClient) :
    Except SDKError Unit × List Effect :=
  match c.query with
  | none => (.error (.cliConnection "Client not connected"), [])
  | some _ => (env.queryInterrupt, [.queryInterrupt])

/-- `InternalClient::set_permission_mode`. -/
def set_permission_mode (env : Env) (c : InternalClient) (mode : PermissionMode) :
    Except SDKError Unit × List Effect :=
  match c.query with
  | none => (.error (.cliConnection "Client not connected"), [])
  | some _ => (env.querySetPermissionMode, [.querySetPermissionMode mode])

/-- `InternalClient::set_model`. -/
def set_model (env : Env) (c : InternalClient) (model : String) :
    Except SDKError Unit × List Effect :=
  match c.query with
  | none => (.error (.cliConnection "Client not connected"), [])
  | some _ => (env.querySetModel, [.querySetModel model])

/-- `InternalClient::rewind_files`. -/
def rewind_files (env : Env) (c : InternalClient) (user_message_id : String) :
    Except SDKError Unit × List Effect :=
  match c.query with
  | none => (.error (.cliConnection "Client not connected"), [])
  | some _ => (env.queryRewindFiles, [.queryRewindFiles user_message_id])

/-- `InternalClient::get_server_info`: `None` (not an error) when the query
handler is absent, otherwise the cached initialize payload. -/
def get_server_info (env : Env) (c : InternalClient) : Option Json :=
  match c.query with
  | none => none
  | some _ => env.queryServerInfo

/-- `InternalClient::get_mcp_status`. -/
def get_mcp_status (env : Env) (c : InternalClient) :
    Except SDKError Json × List Effect :=
  match c.query with
  | none => (.error (.cliConnection "Client not connected"), [])
  | some _ => (env.queryGetMcpStatus, [.queryGetMcpStatus])

/-- `InternalClient::disconnect`: no-op when not connected; otherwise stop
the query handler (propagating its error before any state is cleared), then
drop handler and receiver and clear the connected flag. -/
def disconnect (env : Env) (c : InternalClient) :
    InternalClient × Except SDKError Unit × List Effect :=
  if c.connected then
    match c.query with
    | some _ =>
      match env.queryStop with
      | .error e => (c, .error e, [.queryStop])
      | .ok () =>
        ({ c with query := none, message_rx := none, connected := false },
          .ok (), [.queryStop])
    | none =>
      ({ c with query := none, message_rx := none, connected := false },
        .ok (), [])
  else
    (c, .ok (), [])

/-- `InternalClient::is_connected`. -/
def is_connected (c : InternalClient) : Bool :=
  c.connected

/-- `InternalClient::process_query` (one-shot flow): eager mutual-exclusion
check, connect, send the prompt, then either set the close-stdin-on-result
flag (hooks or permission callback present) or call `end_input` immediately;
finally hand the receiver to the returned stream. The result carries the
client state owned by the returned `ClientStream`. -/
def process_query (env : Env) (options : ClaudeAgentOptions) (prompt : String) :
    Except SDKError InternalClient × List Effect :=
  if options.can_use_tool && options.permission_prompt_tool_name.isSome then
    (.error (.configuration
      "Cannot specify both 'can_use_tool' and 'permission_prompt_tool_name'"), [])
  else
    let has_hooks_or_callbacks := options.can_use_tool || options.hooks
    let c0 := InternalClient.new options
    match connect env c0 with
    | (c1, .error e, tr1) =>
      -- connect's error; c1 is dropped with the error
      let _ := c1
      (.error e, tr1)
    | (c1, .ok (), tr1) =>
      match send_message env c1 prompt with
      | (.error e, tr2) => (.error e, tr1 ++ tr2)
      | (.ok (), tr2) =>
        if has_hooks_or_callbacks then
          let tr3 := set_close_stdin_on_result c1 true
          match take_message_rx c1 with
          | (c2, some _) => (.ok c2, tr1 ++ tr2 ++ tr3)
          | (_, none) =>
            (.error (.internal "Message receiver not available"), tr1 ++ tr2 ++ tr3)
        else
          match end_input env c1 with
          | (.error e, tr3) => (.error e, tr1 ++ tr2 ++ tr3)
          | (.ok (), tr3) =>
            match take_message_rx c1 with
            | (c2, some _) => (.ok c2, tr1 ++ tr2 ++ tr3)
            | (_, none) =>
              (.error (.internal "Message receiver not available"), tr1 ++ tr2 ++ tr3)

end InternalClient

/-! ## MockTransport (`tests/mock_transport.rs`)

The repository's `Transport` implementation with visible state: a list of
pre-recorded responses, a fetch-and-increment read index, a connected flag,
and the log of written messages. -/

/-- `MockTransport` state. -/
structure MockTransport where
  responses : List Json
  response_index : Nat
  connected : Bool
  written_messages : List String

namespace MockTransport

/-- `MockTransport::new`. -/
def new (responses : List Json) : MockTransport :=
  { responses := responses, response_index := 0, connected := false,
    written_messages := [] }

/-- `Transport::connect` for `MockTransport`: sets the connected flag. -/
def connect (t : MockTransport) : MockTransport × Except SDKError Unit :=
  ({ t with connected := true }, .ok ())

/-- `Transport::write` for `MockTransport`: records the line. -/
def write (t : MockTransport) (data : String) : MockTransport × Except SDKError Unit :=
  ({ t with written_messages := t.written_messages ++ [data] }, .ok ())

/-- One `next()` on the stream returned by `message_stream`: fetch-and-add
the index, then yield that response if it exists. -/
def stream_next (t : MockTransport) : MockTransport × Option (Except SDKError Json) :=
  let idx := t.response_index
  ({ t with response_index := idx + 1 }, (t.responses.get? idx).map Except.ok)

/-- `Transport::close` for `MockTransport`: clears the connected flag. -/
def close (t : MockTransport) : MockTransport × Except SDKError Unit :=
  ({ t with connected := false }, .ok ())

/-- `Transport::end_input` for `MockTransport`: a no-op returning `Ok`. -/
def end_input (t : MockTransport) : MockTransport × Except SDKError Unit :=
  (t, .ok ())

/-- `Transport::is_ready` for `MockTransport`. -/
def is_ready (t : MockTransport) : Bool :=
  t.connected

/-- Operations a caller may interleave between lifecycle transitions. -/
inductive TOp where
  | opWrite (data : String) : TOp
  | opStreamNext : TOp
  | opEndInput : TOp
deriving DecidableEq, Repr

/-- Apply one interleaved operation to the transport state. -/
def applyOp (t : MockTransport) (op : TOp) : MockTransport :=
  match op with
  | .opWrite data => (t.write data).1
  | .opStreamNext => (t.stream_next).1
  | .opEndInput => (t.end_input).1

/-- Apply a sequence of interleaved operations. -/
def applyOps (t : MockTransport) (ops : List TOp) : MockTransport :=
  ops.foldl applyOp t

end MockTransport

/-! ## Pending-request table (protocol engine)

`query.rs` is not part of the shipped sources; the table and its response
handling are modelled from the specification. -/

/-- Modelled from the spec: the engine's pending-request table (`query.rs`
is missing from the sources) — "mapping from request id to a single-use
completion slot. Invariant: at most one live entry per id". Entries are kept
as an association list keyed by request id. -/
abbrev PendingTable (α : Type) := List (String × α)

/-- Modelled from the spec: read-loop handling of an arriving control
response (`query.rs` is missing from the sources) — "resolve that entry with
the carried outcome; remove it from the table. Unmatched ids are ignored
(not an error)". Returns the resolved slot (if any) and the updated table;
the `Except` layer witnesses that no input is treated as an error. -/
def resolve_response {α : Type} (table : PendingTable α) (request_id : String) :
    Except String (Option α × PendingTable α) :=
  match table.find? (fun e => e.1 == request_id) with
  | some e => .ok (some e.2, table.eraseP (fun e => e.1 == request_id))
  | none => .ok (none, table)

/-! ## Message types and decoder

The concrete message structs live in the types module and the decoder in
`message_parser.rs`, both missing from the shipped sources; they are
modelled from the specification's data model and decoder contract, with
field names taken from the tests. -/

/-- Text content block. -/
structure TextBlock where
  text : String
deriving DecidableEq, Repr

/-- Tool-use content block. -/
structure ToolUseBlock where
  id : String
  name : String
  input : Json

/-- Tool-result content block. -/
structure ToolResultBlock where
  tool_use_id : String
  content : Option Json
  is_error : Option Bool

/-- Thinking content block. -/
structure ThinkingBlock where
  thinking : String
  signature : String
deriving DecidableEq, Repr

/-- Content blocks: Text, ToolUse, ToolResult, Thinking. -/
inductive ContentBlock where
  | text (block : TextBlock) : ContentBlock
  | toolUse (block : ToolUseBlock) : ContentBlock
  | toolResult (block : ToolResultBlock) : ContentBlock
  | thinking (block : ThinkingBlock) : ContentBlock

/-- `ContentBlock::as_text`: the text of a Text block, `None` otherwise. -/
def ContentBlock.as_text : ContentBlock → Option String
  | .text b => some b.text
  | _ => none

/-- `ContentBlock::is_tool_use`. -/
def ContentBlock.is_tool_use : ContentBlock → Bool
  | .toolUse _ => true
  | _ => false

/-- The ToolUse payload of a block, `none` for other kinds. -/
def ContentBlock.as_tool_use : ContentBlock → Option ToolUseBlock
  | .toolUse b => some b
  | _ => none

/-- System message: subtype plus raw data. -/
structure SystemMessage where
  subtype : String
  data : Json

/-- User message content: plain text or a list of content blocks. -/
inductive UserMessageContent where
  | text (s : String) : UserMessageContent
  | blocks (bs : List ContentBlock) : UserMessageContent

/-- User message. -/
structure UserMessage where
  content : UserMessageContent
  uuid : Option String
  parent_tool_use_id : Option String

/-- Modelled from the spec: `AssistantMessage` (the types module is missing
from the sources) — ordered content blocks, model name, optional error. -/
structure AssistantMessage where
  content : List ContentBlock
  model : String
  parent_tool_use_id : Option String
  error : Option String

/-- Modelled from the spec: the iteration inside `AssistantMessage::text`
(the types module is missing from the sources) — walk the blocks in order,
appending the text of Text blocks and skipping every other kind. -/
def contentText : List ContentBlock → String
  | [] => ""
  | .text tb :: rest => tb.text ++ contentText rest
  | .toolUse _ :: rest => contentText rest
  | .toolResult _ :: rest => contentText rest
  | .thinking _ :: rest => contentText rest

/-- Modelled from the spec: `AssistantMessage::text` (the types module is
missing from the sources) — "concatenates only Text blocks in order,
skipping other block kinds. Empty content list yields empty text". -/
def AssistantMessage.text (m : AssistantMessage) : String :=
  contentText m.content

/-- Modelled from the spec: the iteration inside
`AssistantMessage::tool_uses` — collect the ToolUse blocks in order. -/
def contentToolUses : List ContentBlock → List ToolUseBlock
  | [] => []
  | .toolUse u :: rest => u :: contentToolUses rest
  | .text _ :: rest => contentToolUses rest
  | .toolResult _ :: rest => contentToolUses rest
  | .thinking _ :: rest => contentToolUses rest

/-- Modelled from the spec: `AssistantMessage::tool_uses` (the types module
is missing from the sources) — "extracts ToolUse blocks in order". -/
def AssistantMessage.tool_uses (m : AssistantMessage) : List ToolUseBlock :=
  contentToolUses m.content

/-- Result message (fields from the data model and `test_types.rs`). -/
structure ResultMessage where
  subtype : String
  duration_ms : Int
  duration_api_ms : Int
  is_error : Bool
  num_turns : Int
  session_id : String
  total_cost_usd : Option Json
  usage : Option Json
  result : Option String
  structured_output : Option Json

/-- A typed conversation message. -/
inductive Message where
  | system (m : SystemMessage) : Message
  | user (m : UserMessage) : Message
  | assistant (m : AssistantMessage) : Message
  | result (m : ResultMessage) : Message
  | streamEvent (raw : Json) : Message

/-- String field lookup. -/
def Json.getStr (j : Json) (key : String) : Option String :=
  match j.getField key with
  | some (.str s) => some s
  | _ => none

/-- Integer field lookup. -/
def Json.getInt (j : Json) (key : String) : Option Int :=
  match j.getField key with
  | some (.num n) => some n
  | _ => none

/-- Boolean field lookup. -/
def Json.getBool (j : Json) (key : String) : Option Bool :=
  match j.getField key with
  | some (.bool b) => some b
  | _ => none

/-- Modelled from the spec: decoding of one content block
(`message_parser.rs` is missing from the sources); malformed blocks under a
known message discriminator are decode errors. -/
def parseContentBlock (j : Json) : Except String ContentBlock :=
  match j.typeTag with
  | some "text" =>
    match j.getStr "text" with
    | some t => .ok (.text ⟨t⟩)
    | none => .error "text block missing text"
  | some "tool_use" =>
    match j.getStr "id", j.getStr "name", j.getField "input" with
    | some i, some n, some inp => .ok (.toolUse ⟨i, n, inp⟩)
    | _, _, _ => .error "malformed tool_use block"
  | some "tool_result" =>
    match j.getStr "tool_use_id" with
    | some tid => .ok (.toolResult ⟨tid, j.getField "content", j.getBool "is_error"⟩)
    | none => .error "tool_result block missing tool_use_id"
  | some "thinking" =>
    match j.getStr "thinking", j.getStr "signature" with
    | some th, some sg => .ok (.thinking ⟨th, sg⟩)
    | _, _ => .error "malformed thinking block"
  | _ => .error "unknown content block type"

/-- Decode a list of content blocks, failing on the first malformed one. -/
def parseContentBlocks (xs : List Json) : Except String (List ContentBlock) :=
  xs.mapM parseContentBlock

/-- Modelled from the spec: decoding of a `system` message. -/
def parseSystem (j : Json) : Except String (Option Message) :=
  match j.getStr "subtype" with
  | some st => .ok (some (.system ⟨st, (j.getField "data").getD .null⟩))
  | none => .error "system message missing subtype"

/-- Modelled from the spec: decoding of a `user` message — content is plain
text or ordered content blocks. -/
def parseUser (j : Json) : Except String (Option Message) :=
  match j.getField "message" with
  | some msg =>
    match msg.getField "content" with
    | some (.str s) =>
      .ok (some (.user ⟨.text s, j.getStr "uuid", j.getStr "parent_tool_use_id"⟩))
    | some (.arr xs) =>
      match parseContentBlocks xs with
      | .ok blocks =>
        .ok (some (.user ⟨.blocks blocks, j.getStr "uuid", j.getStr "parent_tool_use_id"⟩))
      | .error e => .error e
    | _ => .error "user message malformed content"
  | none => .error "user message missing message"

/-- Modelled from the spec: decoding of an `assistant` message — requires
the ordered content list (an assistant message missing its content list is
the spec's example of a decode error). -/
def parseAssistant (j : Json) : Except String (Option Message) :=
  match j.getField "message" with
  | some msg =>
    match msg.getField "content" with
    | some (.arr xs) =>
      match parseContentBlocks xs with
      | .ok blocks =>
        .ok (some (.assistant
          ⟨blocks, (msg.getStr "model").getD "", j.getStr "parent_tool_use_id",
            msg.getStr "error"⟩))
      | .error e => .error e
    | _ => .error "assistant message missing content list"
  | none => .error "assistant message missing message"

/-- Modelled from the spec: decoding of a `result` message — subtype,
timing, turn count, session id required; cost, usage, final text optional. -/
def parseResult (j : Json) : Except String (Option Message) :=
  match j.getStr "subtype", j.getInt "duration_ms", j.getInt "duration_api_ms",
      j.getBool "is_error", j.getInt "num_turns", j.getStr "session_id" with
  | some st, some d, some da, some ie, some nt, some sid =>
    .ok (some (.result
      ⟨st, d, da, ie, nt, sid, j.getField "total_cost_usd", j.getField "usage",
        j.getStr "result", j.getField "structured_output"⟩))
  | _, _, _, _, _, _ => .error "result message missing required fields"

/-- Modelled from the spec: decoding of a `stream_event` — the raw
partial-update payload is kept as is. -/
def parseStreamEvent (j : Json) : Except String (Option Message) :=
  .ok (some (.streamEvent j))

/-- The known conversation-message discriminators. -/
def knownMessageTypes : List String :=
  ["system", "user", "assistant", "result", "stream_event"]

/-- Modelled from the spec: `parse_message` (`message_parser.rs` is missing
from the sources) — "given a raw JSON value, return one of: a typed
conversation message, `None` (unknown/ignorable discriminator — must never
error or panic), or a decode error (malformed content for a known
discriminator)". Totality over all JSON values is by construction. -/
def parse_message (j : Json) : Except String (Option Message) :=
  match j.typeTag with
  | some t =>
    if t = "system" then parseSystem j
    else if t = "user" then parseUser j
    else if t = "assistant" then parseAssistant j
    else if t = "result" then parseResult j
    else if t = "stream_event" then parseStreamEvent j
    else .ok none
  | none => .ok none

/-! ## CLI version check (`client.rs`, `check_cli_version`)

The subprocess invocation is abstracted as an outcome; the parsing of its
standard output and the mapping of outcomes to results follow the source.
`semver::Version` is an external crate, modelled here for numeric
`major.minor.patch` strings. -/

/-- Outcome of running `claude --version` under the 2-second timeout. -/
inductive VersionProcOutcome where
  | timeout : VersionProcOutcome
  | spawnNotFound : VersionProcOutcome
  | spawnOther : VersionProcOutcome
  | output (stdout : String) : VersionProcOutcome
deriving Repr

/-- Rust `char::is_whitespace` restricted to the ASCII whitespace relevant
to version output. -/
def isWsChar (c : Char) : Bool :=
  c = ' ' || c = '\t' || c = '\r'

/-- The characters of the first line (`lines().next()`): everything before
the first newline. -/
def takeUntilNl : List Char → List Char
  | [] => []
  | c :: cs => if c = '\n' then [] else c :: takeUntilNl cs

/-- `split_whitespace()`: the non-empty maximal runs of non-whitespace
characters, in order (`cur` holds the current run, reversed). -/
def wsTokens : List Char → List Char → List String
  | cur, [] => if cur.isEmpty then [] else [String.mk cur.reverse]
  | cur, c :: cs =>
    if isWsChar c then
      if cur.isEmpty then wsTokens [] cs
      else String.mk cur.reverse :: wsTokens [] cs
    else wsTokens (c :: cur) cs

/-- `version_str.lines().next().and_then(|l| l.split_whitespace().last()).unwrap_or("unknown")`. -/
def parse_version_output (stdout : String) : String :=
  (wsTokens [] (takeUntilNl stdout.data)).getLast?.getD "unknown"

/-- Split on `.` keeping empty fragments (`cur` holds the current fragment,
reversed). -/
def dotSplit : List Char → List Char → List String
  | cur, [] => [String.mk cur.reverse]
  | cur, c :: cs =>
    if c = '.' then String.mk cur.reverse :: dotSplit [] cs
    else dotSplit (c :: cur) cs

/-- Decimal digits to a number; `none` on a non-digit. -/
def digitsToNat : Nat → List Char → Option Nat
  | acc, [] => some acc
  | acc, c :: cs =>
    if c.isDigit then digitsToNat (acc * 10 + (c.toNat - 48)) cs else none

/-- `String::parse::<u64>`-style numeric parse of one component. -/
def charsToNat? (l : List Char) : Option Nat :=
  if l.isEmpty then none else digitsToNat 0 l

/-- Numeric `major.minor.patch` parse (model of `semver::Version::parse`). -/
def parseSemver (s : String) : Option (Nat × Nat × Nat) :=
  match dotSplit [] s.data with
  | [a, b, c] =>
    match charsToNat? a.data, charsToNat? b.data, charsToNat? c.data with
    | some x, some y, some z => some (x, y, z)
    | _, _, _ => none
  | _ => none

/-- Lexicographic order on semantic versions. -/
def semverLt (a b : Nat × Nat × Nat) : Bool :=
  a.1 < b.1 || (a.1 = b.1 && (a.2.1 < b.2.1 || (a.2.1 = b.2.1 && a.2.2 < b.2.2)))

/-- `check_cli_version` (`client.rs`): timeout → `Timeout(2000)`; missing
executable → `cli_not_found`; other spawn failure → connection error; any
produced output → `Ok` with the parsed version, together with a Boolean
recording whether the below-minimum warning was logged (`MIN_CLI_VERSION`
lives in the missing crate root, so the minimum is a parameter). -/
def check_cli_version (min_cli_version : String) (path : String)
    (outcome : VersionProcOutcome) : Except SDKError String × Bool :=
  match outcome with
  | .timeout => (.error (.timeout 2000), false)
  | .spawnNotFound => (.error (.cliNotFound ("CLI not found at " ++ path)), false)
  | .spawnOther => (.error (.cliConnection "Failed to run CLI version check"), false)
  | .output stdout =>
    let version := parse_version_output stdout
    let warned :=
      match parseSemver version, parseSemver min_cli_version with
      | some found, some required => semverLt found required
      | _, _ => false
    (.ok version, warned)

/-! ## Helper lemmas (shared) -/

/-- In a table with pairwise-distinct keys, lookup finds exactly the member
entry with the sought id. -/
theorem pending_find_of_mem {α : Type} {table : PendingTable α} {rid : String} {v : α}
    (hnd : (table.map Prod.fst).Nodup) (hmem : (rid, v) ∈ table) :
    table.find? (fun e => e.1 == rid) = some (rid, v) := by
  induction table with
  | nil => cases hmem
  | cons hd tl ih =>
    rcases List.mem_cons.mp hmem with h | h
    · subst h
      simp [List.find?_cons_of_pos]
    · have hk : rid ∈ tl.map Prod.fst := List.mem_map_of_mem Prod.fst h
      have hne : hd.1 ≠ rid := by
        intro he
        exact (List.nodup_cons.mp (by simpa using hnd)).1 (he ▸ hk)
      rw [List.find?_cons_of_neg _ (by simpa using hne)]
      exact ih (List.Nodup.of_cons (by simpa using hnd)) h

/-- Lookup misses when the id is not among the keys. -/
theorem pending_find_of_not_mem {α : Type} {table : PendingTable α} {rid : String}
    (h : rid ∉ table.map Prod.fst) :
    table.find? (fun e => e.1 == rid) = none := by
  rw [List.find?_eq_none]
  intro x hx
  simp only [beq_iff_eq]
  intro he
  exact h (he ▸ List.mem_map_of_mem Prod.fst hx)

/-- Removing an id from a distinct-key table removes it from the keys. -/
theorem pending_eraseP_not_mem {α : Type} {table : PendingTable α} (rid : String)
    (hnd : (table.map Prod.fst).Nodup) :
    rid ∉ (table.eraseP (fun e => e.1 == rid)).map Prod.fst := by
  induction table with
  | nil => simp
  | cons hd tl ih =>
    by_cases h : hd.1 = rid
    · rw [List.eraseP_cons_of_pos (by simpa using h)]
      exact h ▸ (List.nodup_cons.mp (by simpa using hnd)).1
    · rw [List.eraseP_cons_of_neg (by simpa using h)]
      simp only [List.map_cons, List.mem_cons, not_or]
      exact ⟨fun he => h he.symm, ih (List.Nodup.of_cons (by simpa using hnd))⟩

/-- Entries with a different id survive the removal. -/
theorem pending_mem_eraseP_of_ne {α : Type} {table : PendingTable α} {rid : String}
    {p : String × α} (hp : p ∈ table) (hne : p.1 ≠ rid) :
    p ∈ table.eraseP (fun e => e.1 == rid) := by
  induction table with
  | nil => cases hp
  | cons hd tl ih =>
    rcases List.mem_cons.mp hp with h | h
    · subst h
      rw [List.eraseP_cons_of_neg (by simpa using hne)]
      exact List.mem_cons_self _ _
    · by_cases hhd : hd.1 = rid
      · rw [List.eraseP_cons_of_pos (by simpa using hhd)]
        exact h
      · rw [List.eraseP_cons_of_neg (by simpa using hhd)]
        exact List.mem_cons_of_mem _ (ih h)

/-- Interleaved writes, stream reads and input half-closes never change the
mock transport's connected flag. -/
theorem mock_applyOps_connected (t : MockTransport) (ops : List MockTransport.TOp) :
    (t.applyOps ops).connected = t.connected := by
  induction ops generalizing t with
  | nil => rfl
  | cons op ops ih =>
    have hstep : (t.applyOp op).connected = t.connected := by
      cases op <;> rfl
    calc (t.applyOps (op :: ops)).connected
        = ((t.applyOp op).applyOps ops).connected := rfl
      _ = (t.applyOp op).connected := ih _
      _ = t.connected := hstep

/-- Folding string append over a list starting from `a` prepends `a`. -/
theorem string_foldl_append_shift (l : List String) (a : String) :
    l.foldl (fun r s => r ++ s) a = a ++ l.foldl (fun r s => r ++ s) "" := by
  induction l generalizing a with
  | nil => simp [String.append_empty]
  | cons s l ih =>
    simp only [List.foldl_cons]
    rw [ih (a ++ s), ih ("" ++ s), String.empty_append, String.append_assoc]

/-- `String.join` over a cons. -/
theorem string_join_cons (s : String) (l : List String) :
    String.join (s :: l) = s ++ String.join l := by
  show l.foldl (fun r t => r ++ t) ("" ++ s) = s ++ l.foldl (fun r t => r ++ t) ""
  rw [String.empty_append, string_foldl_append_shift]

/-- `contentText` splits over concatenation at a Text block. -/
theorem contentText_append_text (l1 l2 : List ContentBlock) (tb : TextBlock) :
    contentText (l1 ++ ContentBlock.text tb :: l2) =
      contentText l1 ++ tb.text ++ contentText l2 := by
  induction l1 with
  | nil => simp [contentText]
  | cons b rest ih =>
    cases b <;> simp [contentText, ih, String.append_assoc]

/-- `contentText` ignores an inserted non-Text block. -/
theorem contentText_skip (l1 l2 : List ContentBlock) (b : ContentBlock)
    (hb : b.as_text = none) :
    contentText (l1 ++ b :: l2) = contentText (l1 ++ l2) := by
  induction l1 with
  | nil => cases b <;> simp_all [contentText, ContentBlock.as_text]
  | cons hd rest ih =>
    cases hd <;> simp [contentText, ih]

/-- `contentText` is the concatenation of the text of exactly the Text
blocks, in order. -/
theorem contentText_eq_join_filterMap (l : List ContentBlock) :
    contentText l = String.join (l.filterMap ContentBlock.as_text) := by
  induction l with
  | nil => rfl
  | cons b rest ih =>
    cases b <;> simp [contentText, ContentBlock.as_text, ih, string_join_cons]

/-- `contentToolUses` splits over concatenation at a ToolUse block. -/
theorem contentToolUses_append_tool (l1 l2 : List ContentBlock) (u : ToolUseBlock) :
    contentToolUses (l1 ++ ContentBlock.toolUse u :: l2) =
      contentToolUses l1 ++ u :: contentToolUses l2 := by
  induction l1 with
  | nil => simp [contentToolUses]
  | cons b rest ih =>
    cases b <;> simp [contentToolUses, ih]

/-- `contentToolUses` ignores an inserted non-ToolUse block. -/
theorem contentToolUses_skip (l1 l2 : List ContentBlock) (b : ContentBlock)
    (hb : b.as_tool_use = none) :
    contentToolUses (l1 ++ b :: l2) = contentToolUses (l1 ++ l2) := by
  induction l1 with
  | nil => cases b <;> simp_all [contentToolUses, ContentBlock.as_tool_use]
  | cons hd rest ih =>
    cases hd <;> simp [contentToolUses, ih]

/-- `contentToolUses` extracts exactly the ToolUse blocks, in order. -/
theorem contentToolUses_eq_filterMap (l : List ContentBlock) :
    contentToolUses l = l.filterMap ContentBlock.as_tool_use := by
  induction l with
  | nil => rfl
  | cons b rest ih =>
    cases b <;> simp [contentToolUses, ContentBlock.as_tool_use, ih]

/-! ## Claims -/

/-- C1: connecting (via `InternalClient::connect` or the one-shot
`InternalClient::process_query`) with both a permission callback and a
permission-prompt tool name fails with a ConfigurationError, eagerly —
before any transport is created or any process is spawned (the effect trace
contains no transport creation); with at most one of the two options set,
validation succeeds. -/
theorem validate_options_mutual_exclusion (env : Env) (opts : ClaudeAgentOptions)
    (prompt : String) (c : InternalClient) :
    (opts.can_use_tool = true → opts.permission_prompt_tool_name.isSome = true →
      InternalClient.process_query env opts prompt =
        (.error (.configuration
          "Cannot specify both 'can_use_tool' and 'permission_prompt_tool_name'"), [])
      ∧ Effect.createTransport ∉ (InternalClient.process_query env opts prompt).2)
  ∧ (opts.can_use_tool = true → opts.permission_prompt_tool_name.isSome = true →
      c.connected = false → c.options = opts →
      InternalClient.connect env c =
        (c, .error (.configuration
          "Cannot specify both 'can_use_tool' and 'permission_prompt_tool_name'"),
          [.validateOptions])
      ∧ Effect.createTransport ∉ (InternalClient.connect env c).2.2)
  ∧ (¬(opts.can_use_tool = true ∧ opts.permission_prompt_tool_name.isSome = true) →
      InternalClient.validate_options opts = .ok ()) := by
  refine ⟨?_, ?_, ?_⟩
  · intro hc hp
    have h : InternalClient.process_query env opts prompt =
        (.error (.configuration
          "Cannot specify both 'can_use_tool' and 'permission_prompt_tool_name'"), []) := by
      simp [InternalClient.process_query, hc, hp]
    exact ⟨h, by rw [h]; simp⟩
  · intro hc hp hconn hopts
    have h : InternalClient.connect env c =
        (c, .error (.configuration
          "Cannot specify both 'can_use_tool' and 'permission_prompt_tool_name'"),
          [.validateOptions]) := by
      simp [InternalClient.connect, InternalClient.validate_options, hconn, hopts, hc, hp]
    exact ⟨h, by rw [h]; simp⟩
  · intro h
    simp only [InternalClient.validate_options]
    rw [if_neg]
    simp only [Bool.and_eq_true]
    exact fun hb => h ⟨hb.1, hb.2⟩

/-- C1 witness. -/
theorem validate_options_mutual_exclusion_witness :
    InternalClient.process_query Env.allOk ⟨true, some "x", false⟩ "hi" =
      (.error (.configuration
        "Cannot specify both 'can_use_tool' and 'permission_prompt_tool_name'"), []) :=
  ((validate_options_mutual_exclusion Env.allOk ⟨true, some "x", false⟩ "hi"
      (InternalClient.new ⟨true, some "x", false⟩)).1 rfl rfl).1

/-- C2: against a pending table with pairwise-distinct ids, an arriving
control response resolves exactly the entry carrying its id, exactly once
(removing it, preserving every other entry, and resolving nothing if
delivered again), and a response with an unknown id resolves nothing, is
not an error, and leaves the table unchanged. -/
theorem resolve_response_exactly_once {α : Type} (table : PendingTable α)
    (rid : String) (hnd : (table.map Prod.fst).Nodup) :
    (∀ v : α, (rid, v) ∈ table →
      resolve_response table rid =
        .ok (some v, table.eraseP (fun e => e.1 == rid))
      ∧ (∀ w : α, (rid, w) ∉ table.eraseP (fun e => e.1 == rid))
      ∧ (∀ p ∈ table, p.1 ≠ rid → p ∈ table.eraseP (fun e => e.1 == rid))
      ∧ resolve_response (table.eraseP (fun e => e.1 == rid)) rid =
          .ok (none, table.eraseP (fun e => e.1 == rid)))
  ∧ (rid ∉ table.map Prod.fst → resolve_response table rid = .ok (none, table)) := by
  constructor
  · intro v hmem
    have hfind := pending_find_of_mem hnd hmem
    have hgone := pending_eraseP_not_mem rid hnd
    refine ⟨?_, ?_, ?_, ?_⟩
    · simp [resolve_response, hfind]
    · intro w hw
      exact hgone (List.mem_map_of_mem Prod.fst hw)
    · intro p hp hne
      exact pending_mem_eraseP_of_ne hp hne
    · simp [resolve_response, pending_find_of_not_mem hgone]
  · intro h
    simp [resolve_response, pending_find_of_not_mem h]

/-- C2 witness: a table with two distinct ids, then the covered cases at
concrete inputs. -/
theorem resolve_response_exactly_once_witness :
    resolve_response [("a", 1), ("b", 2)] "b" = .ok (some 2, [("a", (1 : Nat))])
    ∧ resolve_response [("a", (1 : Nat))] "b" = .ok (none, [("a", 1)]) := by
  have h := resolve_response_exactly_once
    ([("a", 1), ("b", 2)] : PendingTable Nat) "b" (by decide)
  exact ⟨(h.1 2 (by decide)).1, (h.1 2 (by decide)).2.2.2⟩

/-- C3: in the one-shot flow with every external call succeeding — with no
permission callback and no hooks, `end_input` is the immediate last call
after sending the prompt and the close-stdin-on-result flag is never set;
with a permission callback registered, `end_input` is not called and the
close-stdin-on-result flag is set instead. -/
theorem process_query_stdin_policy (prompt : String) (name : Option String) :
    (InternalClient.process_query Env.allOk ⟨false, name, false⟩ prompt).2 =
      [.validateOptions, .createTransport, .transportConnect, .queryStart,
        .queryInitialize, .querySend prompt, .queryEndInput]
  ∧ (InternalClient.process_query Env.allOk ⟨true, none, false⟩ prompt).2 =
      [.validateOptions, .createTransport, .transportConnect, .queryStart,
        .queryInitialize, .querySend prompt, .setCloseStdinOnResult true] :=
  ⟨rfl, rfl⟩

/-- C4: the decoder is total over the embedded JSON values by construction;
every JSON value whose `type` discriminator is unknown (or absent, or whose
value is not even an object) decodes to `Ok(None)`, never an error; and a
decode error can arise only under one of the five known discriminators. -/
theorem parse_message_unknown_type_ok_none :
    (∀ (j : Json) (s : String), j.typeTag = some s → s ∉ knownMessageTypes →
      parse_message j = .ok none)
  ∧ (∀ j : Json, j.typeTag = none → parse_message j = .ok none)
  ∧ (∀ (j : Json) (e : String), parse_message j = .error e →
      ∃ s, j.typeTag = some s ∧ s ∈ knownMessageTypes) := by
  refine ⟨?_, ?_, ?_⟩
  · intro j s h1 h2
    simp only [knownMessageTypes, List.mem_cons, List.not_mem_nil, or_false,
      not_or] at h2
    obtain ⟨n1, n2, n3, n4, n5⟩ := h2
    unfold parse_message
    rw [h1]
    simp [n1, n2, n3, n4, n5]
  · intro j h
    unfold parse_message
    rw [h]
  · intro j e h
    unfold parse_message at h
    split at h
    case h_2 => cases h
    case h_1 t ht =>
      refine ⟨t, ht, ?_⟩
      by_cases h1 : t = "system"
      · simp [knownMessageTypes, h1]
      rw [if_neg h1] at h
      by_cases h2 : t = "user"
      · simp [knownMessageTypes, h2]
      rw [if_neg h2] at h
      by_cases h3 : t = "assistant"
      · simp [knownMessageTypes, h3]
      rw [if_neg h3] at h
      by_cases h4 : t = "result"
      · simp [knownMessageTypes, h4]
      rw [if_neg h4] at h
      by_cases h5 : t = "stream_event"
      · simp [knownMessageTypes, h5]
      rw [if_neg h5] at h
      cases h

/-- C4 witness: an object with the unknown discriminator `weird` decodes to
`Ok(None)`. -/
theorem parse_message_unknown_type_ok_none_witness :
    parse_message (.obj [("type", .str "weird"), ("message", .obj [])]) = .ok none :=
  parse_message_unknown_type_ok_none.1
    (.obj [("type", .str "weird"), ("message", .obj [])]) "weird" rfl (by decide)

/-- C5: for every assistant message, `text()` equals the in-order
concatenation of the text of exactly its Text blocks (inserted ToolUse,
ToolResult and Thinking blocks are skipped; a Text block contributes its
text in position), `tool_uses()` returns exactly its ToolUse blocks in
order, and both return empty results on an empty content list. -/
theorem assistant_text_tool_uses_spec (model : String) (pid err : Option String)
    (l1 l2 : List ContentBlock) (b : ContentBlock) (tb : TextBlock)
    (u : ToolUseBlock) :
    AssistantMessage.text ⟨[], model, pid, err⟩ = ""
  ∧ AssistantMessage.tool_uses ⟨[], model, pid, err⟩ = []
  ∧ AssistantMessage.text ⟨l1, model, pid, err⟩ =
      String.join (l1.filterMap ContentBlock.as_text)
  ∧ AssistantMessage.tool_uses ⟨l1, model, pid, err⟩ =
      l1.filterMap ContentBlock.as_tool_use
  ∧ (b.as_text = none →
      AssistantMessage.text ⟨l1 ++ b :: l2, model, pid, err⟩ =
        AssistantMessage.text ⟨l1 ++ l2, model, pid, err⟩)
  ∧ AssistantMessage.text ⟨l1 ++ ContentBlock.text tb :: l2, model, pid, err⟩ =
      AssistantMessage.text ⟨l1, model, pid, err⟩ ++ tb.text ++
        AssistantMessage.text ⟨l2, model, pid, err⟩
  ∧ (b.as_tool_use = none →
      AssistantMessage.tool_uses ⟨l1 ++ b :: l2, model, pid, err⟩ =
        AssistantMessage.tool_uses ⟨l1 ++ l2, model, pid, err⟩)
  ∧ AssistantMessage.tool_uses ⟨l1 ++ ContentBlock.toolUse u :: l2, model, pid, err⟩ =
      AssistantMessage.tool_uses ⟨l1, model, pid, err⟩ ++ u ::
        AssistantMessage.tool_uses ⟨l2, model, pid, err⟩ := by
  refine ⟨rfl, rfl, ?_, ?_, ?_, ?_, ?_, ?_⟩
  · exact contentText_eq_join_filterMap l1
  · exact contentToolUses_eq_filterMap l1
  · exact fun hb => contentText_skip l1 l2 b hb
  · exact contentText_append_text l1 l2 tb
  · exact fun hb => contentToolUses_skip l1 l2 b hb
  · exact contentToolUses_append_tool l1 l2 u

/-- C5 witness: the repository's own test case — a Text, ToolUse, Text
content list — via the skip property. -/
theorem assistant_text_tool_uses_spec_witness :
    AssistantMessage.text
      ⟨[.text ⟨"Let me help: "⟩, .toolUse ⟨"tool_1", "Read", .obj []⟩,
        .text ⟨"Done."⟩], "claude-3", none, none⟩ = "Let me help: Done." := by
  have h := (assistant_text_tool_uses_spec "claude-3" none none
    [ContentBlock.text ⟨"Let me help: "⟩] [ContentBlock.text ⟨"Done."⟩]
    (.toolUse ⟨"tool_1", "Read", .obj []⟩) ⟨""⟩
    ⟨"tool_1", "Read", .obj []⟩).2.2.2.2.1 rfl
  exact h.trans rfl

/-- C6: `connect` is idempotent — on an already-connected client it returns
`Ok(())`, leaves the state unchanged, and performs no external call (no
re-validation, no transport creation, no initialize round-trip). -/
theorem connect_idempotent (env : Env) (c : InternalClient)
    (h : c.connected = true) :
    InternalClient.connect env c = (c, .ok (), []) := by
  simp [InternalClient.connect, h]

/-- C6 witness. -/
theorem connect_idempotent_witness :
    InternalClient.connect Env.allOk
      ⟨some (), some (), ⟨false, none, false⟩, true⟩ =
      (⟨some (), some (), ⟨false, none, false⟩, true⟩, .ok (), []) :=
  connect_idempotent Env.allOk ⟨some (), some (), ⟨false, none, false⟩, true⟩ rfl

/-- C7: the mock transport's readiness flag — false when freshly
constructed, true after a successful `connect`, false again after a
successful `close`, under any interleaving of writes, stream reads and
input half-closes in between. -/
theorem mock_transport_ready_flag (rs : List Json) (t : MockTransport)
    (ops ops' : List MockTransport.TOp) :
    (MockTransport.new rs).is_ready = false
  ∧ t.connect.2 = .ok ()
  ∧ t.close.2 = .ok ()
  ∧ (t.connect.1.applyOps ops).is_ready = true
  ∧ (t.close.1.applyOps ops').is_ready = false := by
  refine ⟨rfl, rfl, rfl, ?_, ?_⟩
  · rw [MockTransport.is_ready, mock_applyOps_connected]
    rfl
  · rw [MockTransport.is_ready, mock_applyOps_connected]
    rfl

/-- C8: on a client whose query handler is absent, every control operation
(`send_message`, `end_input`, `interrupt`, `set_permission_mode`,
`set_model`, `rewind_files`, `get_mcp_status`) fails with the
"Client not connected" connection error and performs no external call,
while `get_server_info` returns `None` rather than an error. -/
theorem unconnected_client_errors (env : Env) (c : InternalClient)
    (h : c.query = none) (m model uid : String) (mode : PermissionMode) :
    c.send_message env m = (.error (.cliConnection "Client not connected"), [])
  ∧ c.end_input env = (.error (.cliConnection "Client not connected"), [])
  ∧ c.interrupt env = (.error (.cliConnection "Client not connected"), [])
  ∧ c.set_permission_mode env mode =
      (.error (.cliConnection "Client not connected"), [])
  ∧ c.set_model env model = (.error (.cliConnection "Client not connected"), [])
  ∧ c.rewind_files env uid = (.error (.cliConnection "Client not connected"), [])
  ∧ c.get_mcp_status env = (.error (.cliConnection "Client not connected"), [])
  ∧ c.get_server_info env = none := by
  refine ⟨?_, ?_, ?_, ?_, ?_, ?_, ?_, ?_⟩ <;>
    simp [InternalClient.send_message, InternalClient.end_input,
      InternalClient.interrupt, InternalClient.set_permission_mode,
      InternalClient.set_model, InternalClient.rewind_files,
      InternalClient.get_mcp_status, InternalClient.get_server_info, h]

/-- C8 witness. -/
theorem unconnected_client_errors_witness :
    (InternalClient.new ⟨false, none, false⟩).send_message Env.allOk "hi" =
      (.error (.cliConnection "Client not connected"), [])
    ∧ (InternalClient.new ⟨false, none, false⟩).get_server_info Env.allOk = none :=
  ⟨(unconnected_client_errors Env.allOk (InternalClient.new ⟨false, none, false⟩)
      rfl "hi" "m" "u" .default).1,
    (unconnected_client_errors Env.allOk (InternalClient.new ⟨false, none, false⟩)
      rfl "hi" "m" "u" .default).2.2.2.2.2.2.2⟩

/-- C9: `disconnect` is idempotent and clears all connection state — a no-op
returning `Ok(())` on a client that is not connected; on a connected client
whose stop call succeeds, it drops the query handler and message receiver,
clears the connected flag (so `is_connected` is false), and a second
`disconnect` is a no-op. -/
theorem disconnect_idempotent_clears_state (env : Env) (c : InternalClient) :
    (c.connected = false → c.disconnect env = (c, .ok (), []))
  ∧ (c.connected = true → c.query = some () → env.queryStop = .ok () →
      c.disconnect env =
        ({ c with query := none, message_rx := none, connected := false },
          .ok (), [.queryStop])
      ∧ InternalClient.is_connected
          { c with query := none, message_rx := none, connected := false } = false
      ∧ InternalClient.disconnect env
          { c with query := none, message_rx := none, connected := false } =
          ({ c with query := none, message_rx := none, connected := false },
            .ok (), [])) := by
  constructor
  · intro h
    simp [InternalClient.disconnect, h]
  · intro hconn hq hstop
    refine ⟨?_, rfl, ?_⟩
    · simp [InternalClient.disconnect, hconn, hq, hstop]
    · simp [InternalClient.disconnect]

/-- C9 witness. -/
theorem disconnect_idempotent_clears_state_witness :
    InternalClient.disconnect Env.allOk
      ⟨some (), some (), ⟨false, none, false⟩, true⟩ =
      (⟨none, none, ⟨false, none, false⟩, false⟩, .ok (), [.queryStop]) :=
  ((disconnect_idempotent_clears_state Env.allOk
      ⟨some (), some (), ⟨false, none, false⟩, true⟩).2 rfl rfl rfl).1

/-- C10: `check_cli_version` returns `Ok` with the parsed version string for
any produced output — including a version below the minimum (which only
sets the warning, as the concrete below-minimum case shows) and output with
no parseable version token (which yields `"unknown"`); it errors only on
the 2-second timeout, a missing executable, or another spawn failure. -/
theorem check_cli_version_outcomes (min_v path stdout : String) :
    (check_cli_version min_v path (.output stdout)).1 =
      .ok (parse_version_output stdout)
  ∧ check_cli_version min_v path .timeout = (.error (.timeout 2000), false)
  ∧ check_cli_version min_v path .spawnNotFound =
      (.error (.cliNotFound ("CLI not found at " ++ path)), false)
  ∧ check_cli_version min_v path .spawnOther =
      (.error (.cliConnection "Failed to run CLI version check"), false)
  ∧ (wsTokens [] (takeUntilNl stdout.data) = [] →
      (check_cli_version min_v path (.output stdout)).1 = .ok "unknown")
  ∧ check_cli_version "2.0.0" path (.output "claude 1.0.0") = (.ok "1.0.0", true) := by
  refine ⟨rfl, rfl, rfl, rfl, ?_, rfl⟩
  intro h
  simp [check_cli_version, parse_version_output, h]

/-- C10 witness: empty output parses to the version string `unknown`, still
`Ok`. -/
theorem check_cli_version_outcomes_witness :
    (check_cli_version "1.0.0" "claude" (.output "")).1 = .ok "unknown" :=
  (check_cli_version_outcomes "1.0.0" "claude" "").2.2.2.2.1 rfl

end ClaudeSDK
